import Mathlib

/-!
Shallow embedding of the connection-oriented channel lifecycle code of
`packages_modules_Bluetooth`:

* `src/system/stack/avct/avct_l2c_br.cc` — the AVCTP browsing-channel
  L2CAP interface (simultaneous-connect tie-break, conflict handles,
  data indications).
* `src/system/stack/gatt/gatt_main.cc` — the ATT/GATT channel state
  machine (fixed LE channel and dynamic BR/EDR channel), link-hold
  policy, congestion relay, service-changed bookkeeping, connection
  callback fan-out.

Machine integers are modelled as `Nat` (the code never relies on
overflow in the modelled fragments); external collaborators (L2CAP,
BTM, the connection manager, storage, the interop database) appear as
explicit parameters, and side-effecting calls are recorded in explicit
action traces.
-/

namespace BtStack

/-- Side-effecting lower-layer calls made by the AVCTP browsing-channel
code, recorded as a trace. -/
inductive AvctAction where
  | disconnectReq (lcid : Nat)
  deriving DecidableEq, Repr

/-- Browsing-channel states, from `avct_int.h`:
`AVCT_CH_IDLE`, `AVCT_CH_CONN`, `AVCT_CH_CFG`, `AVCT_CH_OPEN`. -/
inductive tAVCT_CH_STATE where
  | AVCT_CH_IDLE
  | AVCT_CH_CONN
  | AVCT_CH_CFG
  | AVCT_CH_OPEN
  deriving DecidableEq, Repr

export tAVCT_CH_STATE (AVCT_CH_IDLE AVCT_CH_CONN AVCT_CH_CFG AVCT_CH_OPEN)

/-- L2CAP connect results used by the AVCTP code (`tL2CAP_CONN`). -/
inductive tL2CAP_CONN where
  | L2CAP_CONN_OK
  | L2CAP_CONN_NO_RESOURCES
  | L2CAP_CONN_OTHER
  deriving DecidableEq, Repr

export tL2CAP_CONN (L2CAP_CONN_OK L2CAP_CONN_NO_RESOURCES L2CAP_CONN_OTHER)

/-- Browsing-channel control block (`tAVCT_BCB`), the fields used by
`avct_l2c_br.cc`.  Addresses are modelled as `Nat`. -/
structure tAVCT_BCB where
  allocated : Nat
  peer_addr : Nat
  ch_state : tAVCT_CH_STATE
  ch_lcid : Nat
  conflict_lcid : Nat
  ch_result : Nat
  deriving DecidableEq, Repr

/-- The `AVCT_PASSIVE` bit of the connection-control bitmask
(`avct_api.h`). -/
def AVCT_PASSIVE : Nat := 2

/-- Connection control block fields used by `avct_l2c_br_is_passive`:
whether the CCB is allocated, whether its `p_lcb` equals the LCB of the
BCB under test, and its `cc.control` bitmask. -/
structure tAVCT_CCB where
  allocated : Bool
  lcb_match : Bool
  control : Nat
  deriving DecidableEq, Repr

/-- Embeds `avct_l2c_br_is_passive` (avct_l2c_br.cc:78): scan the CCB
table for an allocated CCB bound to the same LCB whose control bitmask
has the `AVCT_PASSIVE` bit set. -/
def avct_l2c_br_is_passive (ccbs : List tAVCT_CCB) : Bool :=
  ccbs.any (fun c => c.allocated && c.lcb_match && decide (c.control &&& AVCT_PASSIVE ≠ 0))

/-- Result of the inbound browsing-channel connect indication: the
updated BCB, the trace of L2CAP requests sent, and whether the
connection was accepted. -/
structure AvctConnectIndResult where
  bcb : tAVCT_BCB
  actions : List AvctAction
  accepted : Bool
  deriving DecidableEq, Repr

/-- Embeds `avct_l2c_br_connect_ind_cback` (avct_l2c_br.cc:107).
`lcb_alloc` is the result of `avct_lcb_by_bd` (`none` when no control
channel exists for the address, otherwise the LCB's allocated index);
`bcb` is the BCB returned by `avct_bcb_by_lcb`; `ccbs` feeds
`avct_l2c_br_is_passive`. -/
def avct_l2c_br_connect_ind_cback (lcb_alloc : Option Nat) (bcb : tAVCT_BCB)
    (ccbs : List tAVCT_CCB) (bd_addr lcid : Nat) : AvctConnectIndResult :=
  match lcb_alloc with
  | none =>
      { bcb := bcb, actions := [AvctAction.disconnectReq lcid], accepted := false }
  | some alloc =>
      let b1 : tAVCT_BCB := { bcb with peer_addr := bd_addr }
      if b1.allocated = 0 then
        let b2 : tAVCT_BCB := { b1 with allocated := alloc }
        { bcb := { b2 with ch_lcid := lcid, ch_state := AVCT_CH_CFG },
          actions := [], accepted := true }
      else if ¬avct_l2c_br_is_passive ccbs ∨ b1.ch_state = AVCT_CH_OPEN then
        { bcb := b1, actions := [AvctAction.disconnectReq lcid], accepted := false }
      else
        let b2 : tAVCT_BCB := { b1 with conflict_lcid := b1.ch_lcid }
        { bcb := { b2 with ch_lcid := lcid, ch_state := AVCT_CH_CFG },
          actions := [], accepted := true }

/-- Embeds `avct_l2c_br_connect_cfm_cback` (avct_l2c_br.cc:190).
`bcb` is the result of `avct_bcb_by_lcid` for `lcid`. -/
def avct_l2c_br_connect_cfm_cback (bcb : Option tAVCT_BCB) (lcid : Nat)
    (result : tL2CAP_CONN) : Option tAVCT_BCB × List AvctAction :=
  match bcb with
  | none => (none, [])
  | some b =>
      if b.ch_state = AVCT_CH_CONN then
        if result = L2CAP_CONN_OK then
          (some { b with ch_state := AVCT_CH_CFG }, [])
        else
          (some b, [])
      else if b.conflict_lcid = lcid then
        if result = L2CAP_CONN_OK then
          (some { b with conflict_lcid := 0 }, [AvctAction.disconnectReq lcid])
        else
          (some { b with conflict_lcid := 0 }, [])
      else
        (some b, [])

/-- Transports (`tBT_TRANSPORT`). -/
inductive tBT_TRANSPORT where
  | BT_TRANSPORT_LE
  | BT_TRANSPORT_BR_EDR
  deriving DecidableEq, Repr

export tBT_TRANSPORT (BT_TRANSPORT_LE BT_TRANSPORT_BR_EDR)

/-- GATT channel states, from `gatt_int.h`: `GATT_CH_CLOSE = 0`,
`GATT_CH_CLOSING = 1`, `GATT_CH_CONN = 2`, `GATT_CH_CFG = 3`,
`GATT_CH_OPEN = 4`. -/
inductive tGATT_CH_STATE where
  | GATT_CH_CLOSE
  | GATT_CH_CLOSING
  | GATT_CH_CONN
  | GATT_CH_CFG
  | GATT_CH_OPEN
  deriving DecidableEq, Repr

export tGATT_CH_STATE (GATT_CH_CLOSE GATT_CH_CLOSING GATT_CH_CONN GATT_CH_CFG GATT_CH_OPEN)

/-- Numeric value of a GATT channel state (`gatt_int.h` enum values),
used for the `< GATT_CH_OPEN` comparison in `gatt_le_data_ind`. -/
def tGATT_CH_STATE.val : tGATT_CH_STATE → Nat
  | GATT_CH_CLOSE => 0
  | GATT_CH_CLOSING => 1
  | GATT_CH_CONN => 2
  | GATT_CH_CFG => 3
  | GATT_CH_OPEN => 4

/-- The fixed ATT channel id (`L2CAP_ATT_CID`, l2cdefs.h). -/
def L2CAP_ATT_CID : Nat := 4

/-- Idle-timeout value meaning "never time out" (`gatt_api.h`). -/
def GATT_LINK_NO_IDLE_TIMEOUT : Nat := 0xFFFF

/-- Idle-timeout value used when no application holds the link
(`gatt_api.h`). -/
def GATT_LINK_IDLE_TIMEOUT_WHEN_NO_APP : Nat := 1

/-- Connection reason codes used by the embedded fragments
(`gatt_api.h`): OK, L2CAP failure, terminated by peer, terminated by
local host. -/
def GATT_CONN_OK : Nat := 0

/-- Reason code `GATT_CONN_L2C_FAILURE` (`gatt_api.h`). -/
def GATT_CONN_L2C_FAILURE : Nat := 1

/-- Reason code `GATT_CONN_TERMINATE_PEER_USER` (`gatt_api.h`). -/
def GATT_CONN_TERMINATE_PEER_USER : Nat := 0x13

/-- Reason code `GATT_CONN_TERMINATE_LOCAL_HOST` (`gatt_api.h`). -/
def GATT_CONN_TERMINATE_LOCAL_HOST : Nat := 0x16

/-- GATT connection control block (`tGATT_TCB`), the fields used by the
embedded fragments of `gatt_main.cc`. -/
structure tGATT_TCB where
  peer_bda : Nat
  transport : tBT_TRANSPORT
  att_lcid : Nat
  ch_state : tGATT_CH_STATE
  payload_size : Nat
  app_hold_link : Finset Nat
  tcb_idx : Nat
  deriving DecidableEq

/-- Side-effecting calls made by the embedded GATT code, recorded as a
trace in program order. -/
inductive GattAction where
  | setIdleTimeout (bda timeout : Nat) (is_active : Bool)
  | eattDisconnect (bda : Nat)
  | removeFixedChnl (bda : Nat)
  | l2caDisconnectReq (lcid : Nat)
  | connMgrStopAll (bda : Nat)
  | connMgrDirectRemove (bda : Nat)
  | acceptlistRemove (bda : Nat)
  | addBondedForSrvChg (bda : Nat)
  | cleanupUponDisc (bda reason : Nat) (transport : tBT_TRANSPORT)
  | arbiterOnLeDisconnect (tcb_idx : Nat)
  | connOpenedCback (gatt_if bda conn_id : Nat) (connected : Bool) (reason : Nat)
      (transport : tBT_TRANSPORT)
  | resumeSendNextCmd (tcb_idx : Nat)
  | congestionCb (conn_id : Nat) (congested : Bool)
  | handleValueInd (conn_id handle : Nat) (payload : List Nat)
  | connMgrOnComplete (bda : Nat)
  deriving DecidableEq, Repr

/-- Modelled from the spec: `logical_id = pack(slot_index, client_id)`
(the `GATT_CREATE_CONN_ID` macro lives in `gatt_int.h`, which is not
under src/; the spec only requires a packing of the session slot index
and the client id into one identifier). -/
def GATT_CREATE_CONN_ID (tcb_idx gatt_if : Nat) : Nat :=
  (tcb_idx % 256) * 256 + gatt_if % 256

/-- Embeds `gatt_get_ch_state` (gatt_main.cc:1186): a null TCB reads as
`GATT_CH_CLOSE`. -/
def gatt_get_ch_state : Option tGATT_TCB → tGATT_CH_STATE
  | none => GATT_CH_CLOSE
  | some t => t.ch_state

/-- Embeds `gatt_update_app_hold_link_status` (gatt_main.cc:320):
returns the updated holder set and the C function's boolean result. -/
def gatt_update_app_hold_link_status (gatt_if : Nat) (holders : Finset Nat)
    (is_add : Bool) : Finset Nat × Bool :=
  if is_add then
    (insert gatt_if holders, true)
  else if gatt_if ∈ holders then
    (holders.erase gatt_if, true)
  else
    (holders, false)

/-- Embeds `gatt_l2cif_disconnect` (gatt_main.cc:887).  `in_srv_chg_list`
and `bonded` are the results of the external lookups
`gatt_is_bda_in_the_srv_chg_clt_list` and `btm_sec_is_a_bonded_dev`;
`tcb` is the result of `gatt_find_tcb_by_cid`. -/
def gatt_l2cif_disconnect (in_srv_chg_list bonded : Bool) (tcb : Option tGATT_TCB)
    (lcid : Nat) : List GattAction :=
  GattAction.l2caDisconnectReq lcid ::
    match tcb with
    | none => []
    | some t =>
        (if ¬in_srv_chg_list ∧ bonded then [GattAction.addBondedForSrvChg t.peer_bda] else [])
          ++ [GattAction.cleanupUponDisc t.peer_bda GATT_CONN_TERMINATE_LOCAL_HOST
                BT_TRANSPORT_BR_EDR]

/-- Embeds `gatt_disconnect` (gatt_main.cc:256).  `unified` is
`use_unified_connection_manager_is_enabled()`; `dcr` is the result of
`connection_manager::direct_connect_remove`; the session state returned
is the TCB after the function body (the freeing performed inside
`gatt_cleanup_upon_disc`, which is not part of this function, shows up
as the `cleanupUponDisc` action). -/
def gatt_disconnect (unified dcr in_srv_chg_list bonded : Bool) :
    Option tGATT_TCB → Bool × Option tGATT_TCB × List GattAction
  | none => (false, none, [])
  | some t =>
      if t.ch_state = GATT_CH_CLOSING then
        (true, some t, [])
      else if t.att_lcid = L2CAP_ATT_CID then
        if t.ch_state = GATT_CH_OPEN then
          (true, some { t with ch_state := GATT_CH_CLOSING },
            [GattAction.removeFixedChnl t.peer_bda])
        else
          (true, some t,
            (if unified then [GattAction.connMgrStopAll t.peer_bda]
             else GattAction.connMgrDirectRemove t.peer_bda ::
               (if dcr then [] else [GattAction.acceptlistRemove t.peer_bda]))
              ++ [GattAction.cleanupUponDisc t.peer_bda GATT_CONN_TERMINATE_LOCAL_HOST
                    t.transport])
      else
        if t.ch_state = GATT_CH_OPEN ∨ t.ch_state = GATT_CH_CFG then
          (true, some t, gatt_l2cif_disconnect in_srv_chg_list bonded (some t) t.att_lcid)
        else
          (true, some t, [])

/-- Embeds `gatt_update_app_use_link_flag` (gatt_main.cc:357).
`is_valid_handle` is the result of the external
`BTM_GetHCIConnHandle(...) != GATT_INVALID_ACL_HANDLE` check; the last
four booleans parameterise the embedded `gatt_disconnect`. -/
def gatt_update_app_use_link_flag (gatt_if : Nat) (tcb : Option tGATT_TCB)
    (is_add check_acl_link is_valid_handle : Bool)
    (unified dcr in_srv_chg_list bonded : Bool) : Option tGATT_TCB × List GattAction :=
  match tcb with
  | none => (none, [])
  | some t =>
      let hm := gatt_update_app_hold_link_status gatt_if t.app_hold_link is_add
      let t1 : tGATT_TCB := { t with app_hold_link := hm.1 }
      if hm.2 = false then (some t1, [])
      else if check_acl_link = false then (some t1, [])
      else if is_add then
        if t1.att_lcid = L2CAP_ATT_CID ∧ is_valid_handle = true then
          (some t1, [GattAction.setIdleTimeout t1.peer_bda GATT_LINK_NO_IDLE_TIMEOUT true])
        else
          (some t1, [])
      else
        if t1.app_hold_link = ∅ then
          if t1.att_lcid = L2CAP_ATT_CID ∧ is_valid_handle = true then
            (some t1, [GattAction.eattDisconnect t1.peer_bda,
              GattAction.setIdleTimeout t1.peer_bda GATT_LINK_IDLE_TIMEOUT_WHEN_NO_APP false])
          else
            let d := gatt_disconnect unified dcr in_srv_chg_list bonded (some t1)
            (d.2.1, d.2.2)
        else
          (some t1, [])

/-- Decision of the ACL arbiter's `InterceptAttPacket`
(`stack/arbiter/acl_arbiter.h`): drop the packet or forward it. -/
inductive InterceptAction where
  | DROP
  | FORWARD
  deriving DecidableEq, Repr

/-- Outcome of a data indication: whether the payload was handed to
`gatt_data_process` (resp. the AVCT state machine) and whether the
buffer was released by the handler. -/
structure DataIndOutcome where
  processed : Bool
  freed : Bool
  deriving DecidableEq, Repr

/-- Embeds `gatt_le_data_ind` (gatt_main.cc:738).  `tcb` is the result
of `gatt_find_tcb_by_addr`; `decision` is the arbiter's verdict.  The
buffer is freed unconditionally at the end of the function; the payload
is processed only if the arbiter does not drop it and the channel state
is at least `GATT_CH_OPEN`. -/
def gatt_le_data_ind (tcb : Option tGATT_TCB) (decision : InterceptAction) : DataIndOutcome :=
  match tcb with
  | none => { processed := false, freed := true }
  | some t =>
      if decision = InterceptAction.DROP then
        { processed := false, freed := true }
      else if (gatt_get_ch_state (some t)).val < GATT_CH_OPEN.val then
        { processed := false, freed := true }
      else
        { processed := true, freed := true }

/-- Embeds `gatt_l2cif_data_ind_cback` (gatt_main.cc:905): the payload
is processed only when a TCB exists for the channel id and its state is
exactly `GATT_CH_OPEN`; the buffer is always freed. -/
def gatt_l2cif_data_ind_cback (tcb : Option tGATT_TCB) : DataIndOutcome :=
  match tcb with
  | none => { processed := false, freed := true }
  | some t =>
      if gatt_get_ch_state (some t) = GATT_CH_OPEN then
        { processed := true, freed := true }
      else
        { processed := false, freed := true }

/-- Modelled from the spec: the browsing-channel state machine's
handling of `AVCT_LCB_LL_MSG_EVT` lives in `avct_bcb_act.cc`, which is
not under src/; per the spec, data received while the channel state is
below `Open` is dropped and the buffer released, and only an `Open`
channel processes the payload. -/
def avct_bcb_event_ll_msg (b : tAVCT_BCB) : DataIndOutcome :=
  if b.ch_state = AVCT_CH_OPEN then
    { processed := true, freed := true }
  else
    { processed := false, freed := true }

/-- Embeds `avct_l2c_br_data_ind_cback` (avct_l2c_br.cc:364): on a
lookup miss the buffer is freed and nothing else happens; otherwise the
payload is forwarded to the browsing-channel state machine as an
`AVCT_LCB_LL_MSG_EVT`. -/
def avct_l2c_br_data_ind_cback (bcb : Option tAVCT_BCB) : DataIndOutcome :=
  match bcb with
  | none => { processed := false, freed := true }
  | some b => avct_bcb_event_ll_msg b

/-- GATT registrant (`tGATT_REG`), the fields used by the embedded
fragments: whether the slot is in use, the client id, whether the
optional congestion / connection callbacks are registered, and the
direct-connect request set. -/
structure tGATT_REG where
  in_use : Bool
  gatt_if : Nat
  has_congestion_cb : Bool
  has_conn_cb : Bool
  direct_connect_request : Finset Nat
  deriving DecidableEq

/-- Embeds `gatt_channel_congestion` (gatt_main.cc:625), whose callers
guarantee a non-null TCB: when transitioning to uncongested, the queued
outbound commands are resumed (`gatt_cl_send_next_cmd_inq`) before the
loop that notifies every in-use registrant with a congestion callback. -/
def gatt_channel_congestion (t : tGATT_TCB) (congested : Bool)
    (regs : List tGATT_REG) : List GattAction :=
  (if congested = false then [GattAction.resumeSendNextCmd t.tcb_idx] else [])
    ++ regs.filterMap (fun r =>
        if r.in_use && r.has_congestion_cb then
          some (GattAction.congestionCb (GATT_CREATE_CONN_ID t.tcb_idx r.gatt_if) congested)
        else
          none)

/-- Embeds `gatt_le_cong_cback` (gatt_main.cc:714): a lookup miss does
nothing, otherwise the event is relayed to `gatt_channel_congestion`. -/
def gatt_le_cong_cback (tcb : Option tGATT_TCB) (congested : Bool)
    (regs : List tGATT_REG) : List GattAction :=
  match tcb with
  | none => []
  | some t => gatt_channel_congestion t congested regs

/-- Embeds `gatt_l2cif_congest_cback` (gatt_main.cc:917). -/
def gatt_l2cif_congest_cback (tcb : Option tGATT_TCB) (congested : Bool)
    (regs : List tGATT_REG) : List GattAction :=
  match tcb with
  | none => []
  | some t => gatt_channel_congestion t congested regs

/-- Service-changed client record (`tGATTS_SRV_CHG`). -/
structure tGATTS_SRV_CHG where
  bda : Nat
  srv_changed : Bool
  deriving DecidableEq, Repr

/-- Little-endian byte serialisation of a 16-bit value, as done by the
`UINT16_TO_STREAM` macro. -/
def UINT16_TO_STREAM (v : Nat) : List Nat :=
  [v % 256, v / 256 % 256]

/-- Embeds `gatt_send_srv_chg_ind` (gatt_main.cc:1065).  `handle_of_h_r`
is `gatt_cb.handle_of_h_r` (0 = no service-changed attribute);
`conn_id` is the result of the external
`gatt_profile_find_conn_id_by_bd_addr` (`none` = invalid); `start_hdl`
and `last_hdl` are the configured handle-range properties.  When all
guards pass, a 4-byte handle-range indication is queued. -/
def gatt_send_srv_chg_ind (handle_of_h_r : Nat) (conn_id : Option Nat)
    (start_hdl last_hdl : Nat) (peer_bda : Nat) : List GattAction :=
  if handle_of_h_r = 0 then []
  else
    match conn_id with
    | none => []
    | some cid =>
        [GattAction.handleValueInd cid handle_of_h_r
          (UINT16_TO_STREAM start_hdl ++ UINT16_TO_STREAM last_hdl)]

/-- Embeds `gatt_chk_srv_chg` (gatt_main.cc:1094), the check performed
when a session reaches `Open`: the indication is attempted exactly when
the client record's `srv_changed` flag is set. -/
def gatt_chk_srv_chg (handle_of_h_r : Nat) (conn_id : Option Nat)
    (start_hdl last_hdl : Nat) (clt : tGATTS_SRV_CHG) : List GattAction :=
  if clt.srv_changed then
    gatt_send_srv_chg_ind handle_of_h_r conn_id start_hdl last_hdl clt.bda
  else
    []

/-- Embeds the per-connected-device body of `gatt_proc_srv_chg`
(gatt_main.cc:1138), the path run when the local database changes:
`ind_pending` is the result of the external
`gatt_is_srv_chg_ind_pending`; `stored_name` the stored remote name
(`none` when `btif_storage_get_stored_remote_name` fails); and
`interop_name_match` the interop database predicate for
`INTEROP_GATTC_NO_SERVICE_CHANGED_IND`. -/
def gatt_proc_srv_chg_device (ind_pending : Bool) (stored_name : Option String)
    (interop_name_match : String → Bool) (handle_of_h_r : Nat) (conn_id : Option Nat)
    (start_hdl last_hdl : Nat) (bda : Nat) : List GattAction :=
  let send1 : Bool := !ind_pending
  let send2 : Bool :=
    match stored_name with
    | some name => if send1 && interop_name_match name then false else send1
    | none => send1
  if send2 then gatt_send_srv_chg_ind handle_of_h_r conn_id start_hdl last_hdl bda
  else []

/-- One iteration of the registrant loop in `gatt_send_conn_cback`
(gatt_main.cc:942): slots not in use are skipped; a registrant found in
`apps` (the connection manager's set of clients connecting to this
peer) is turned into a link holder; with the `gatt_reconnect_on_bt_on_fix`
flag, a registrant whose direct-connect request set contains the peer
is also turned into a holder and the request is consumed; finally the
connection-opened callback, when registered, is invoked with the packed
connection id, `kGattConnected`, `GATT_CONN_OK` and the session's
transport. -/
def gatt_send_conn_cback_step (apps : Finset Nat)
    (reconnect_fix is_valid_handle unified dcr in_srv_chg_list bonded : Bool)
    (t : tGATT_TCB) (r : tGATT_REG) : tGATT_TCB × tGATT_REG × List GattAction :=
  if r.in_use = false then (t, r, [])
  else
    let s1 : tGATT_TCB × List GattAction :=
      if r.gatt_if ∈ apps then
        let o := gatt_update_app_use_link_flag r.gatt_if (some t) true true
          is_valid_handle unified dcr in_srv_chg_list bonded
        (o.1.getD t, o.2)
      else (t, [])
    let s2 : tGATT_TCB × tGATT_REG × List GattAction :=
      if reconnect_fix = true ∧ t.peer_bda ∈ r.direct_connect_request then
        let o := gatt_update_app_use_link_flag r.gatt_if (some s1.1) true true
          is_valid_handle unified dcr in_srv_chg_list bonded
        (o.1.getD s1.1,
          { r with direct_connect_request := r.direct_connect_request.erase t.peer_bda },
          o.2)
      else (s1.1, r, [])
    let a3 : List GattAction :=
      if r.has_conn_cb then
        [GattAction.connOpenedCback r.gatt_if s2.1.peer_bda
          (GATT_CREATE_CONN_ID s2.1.tcb_idx r.gatt_if) true GATT_CONN_OK s2.1.transport]
      else []
    (s2.1, s2.2.1, s1.2 ++ s2.2.2 ++ a3)

/-- The registrant loop of `gatt_send_conn_cback`, folded over the
registry in slot order, threading the TCB (its holder set grows) and
collecting the action trace. -/
def gatt_send_conn_cback_loop (apps : Finset Nat)
    (reconnect_fix is_valid_handle unified dcr in_srv_chg_list bonded : Bool) :
    tGATT_TCB → List tGATT_REG → tGATT_TCB × List tGATT_REG × List GattAction
  | t, [] => (t, [], [])
  | t, r :: rs =>
      let s := gatt_send_conn_cback_step apps reconnect_fix is_valid_handle unified dcr
        in_srv_chg_list bonded t r
      let rest := gatt_send_conn_cback_loop apps reconnect_fix is_valid_handle unified dcr
        in_srv_chg_list bonded s.1 rs
      (rest.1, s.2.1 :: rest.2.1, s.2.2 ++ rest.2.2)

/-- Embeds `gatt_send_conn_cback` (gatt_main.cc:926).
`apps_connecting` models the external
`connection_manager::get_apps_connecting_to(peer)`: per the spec, the
set of registered clients whose outstanding direct-connect request set
or background-connect filter includes this peer (the connection manager
itself is not under src/).  With the unified connection manager the
code sets this set to empty.  After the loop, the direct connection is
removed from the legacy connection manager, and for a fixed-channel
session the idle timeout is set according to whether the holder set is
empty. -/
def gatt_send_conn_cback (apps_connecting : Finset Nat)
    (reconnect_fix is_valid_handle unified dcr in_srv_chg_list bonded : Bool)
    (t : tGATT_TCB) (regs : List tGATT_REG) :
    tGATT_TCB × List tGATT_REG × List GattAction :=
  let apps : Finset Nat := if unified then ∅ else apps_connecting
  let l := gatt_send_conn_cback_loop apps reconnect_fix is_valid_handle unified dcr
    in_srv_chg_list bonded t regs
  let a2 : List GattAction :=
    if unified = false then [GattAction.connMgrOnComplete t.peer_bda] else []
  let a3 : List GattAction :=
    if l.1.att_lcid = L2CAP_ATT_CID then
      if l.1.app_hold_link ≠ ∅ then
        [GattAction.setIdleTimeout l.1.peer_bda GATT_LINK_NO_IDLE_TIMEOUT true]
      else
        [GattAction.setIdleTimeout l.1.peer_bda GATT_LINK_IDLE_TIMEOUT_WHEN_NO_APP false]
    else []
  (l.1, l.2.1, l.2.2 ++ a2 ++ a3)

/-- Embeds the disconnected (`connected == false`) path of
`gatt_le_connect_cback` (gatt_main.cc:480): BR/EDR events are ignored;
otherwise the service-changed bookkeeping runs (a bonded peer not yet
in the list is added), the arbiter is told about the disconnect when a
TCB exists, and `gatt_cleanup_upon_disc` is invoked with the reason
passed by the lower layer. -/
def gatt_le_connect_cback_disc (tcb : Option tGATT_TCB) (in_srv_chg_list bonded : Bool)
    (bd_addr reason : Nat) (transport : tBT_TRANSPORT) : List GattAction :=
  if transport = BT_TRANSPORT_BR_EDR then []
  else
    (if ¬in_srv_chg_list ∧ bonded then [GattAction.addBondedForSrvChg bd_addr] else [])
      ++ (match tcb with
          | some t => [GattAction.arbiterOnLeDisconnect t.tcb_idx]
          | none => [])
      ++ [GattAction.cleanupUponDisc bd_addr reason transport]

/-- Embeds `connection_manager::on_connection_timed_out`
(gatt_main.cc:468): depending on the `enumerate_gatt_errors` flag, the
fixed-channel disconnect path is entered with reason `0x08` or with the
historical `0xff`. -/
def connection_manager_on_connection_timed_out (enumerate_gatt_errors : Bool)
    (tcb : Option tGATT_TCB) (in_srv_chg_list bonded : Bool)
    (address : Nat) : List GattAction :=
  if enumerate_gatt_errors then
    gatt_le_connect_cback_disc tcb in_srv_chg_list bonded address 0x08 BT_TRANSPORT_LE
  else
    gatt_le_connect_cback_disc tcb in_srv_chg_list bonded address 0xff BT_TRANSPORT_LE

/-- Modelled from the spec: `gatt_cleanup_upon_disc` (gatt_utils.cc, not
under src/) reports the disconnect to the upper layer; per the spec,
disconnect reason codes are propagated to the registered clients'
connection callbacks verbatim. -/
def gatt_cleanup_upon_disc_notify (regs : List tGATT_REG) (tcb_idx bda reason : Nat)
    (transport : tBT_TRANSPORT) : List GattAction :=
  regs.filterMap (fun r =>
    if r.in_use && r.has_conn_cb then
      some (GattAction.connOpenedCback r.gatt_if bda (GATT_CREATE_CONN_ID tcb_idx r.gatt_if)
        false reason transport)
    else
      none)

/-! ### Claim theorems -/

/-- C1: an inbound browsing-channel connect indication for a peer whose
session already exists (`allocated ≠ 0`) is tie-broken as follows: if
the existing channel was created passively and is not yet `Open`, the
indication is accepted, the old handle is recorded as the conflict
handle, and the new handle becomes the channel handle with state
`Configuring`; if the existing channel is not passive or is already
`Open`, a transport-level disconnect is requested for the new handle
and the session is left unchanged. -/
theorem avct_connect_ind_tie_break (alloc : Nat) (bcb : tAVCT_BCB)
    (ccbs : List tAVCT_CCB) (bd_addr lcid : Nat)
    (halloc : bcb.allocated ≠ 0) (haddr : bcb.peer_addr = bd_addr) :
    ((avct_l2c_br_is_passive ccbs = true ∧ bcb.ch_state ≠ AVCT_CH_OPEN) →
      avct_l2c_br_connect_ind_cback (some alloc) bcb ccbs bd_addr lcid =
        { bcb := { bcb with
            conflict_lcid := bcb.ch_lcid,
            ch_lcid := lcid,
            ch_state := AVCT_CH_CFG },
          actions := [], accepted := true })
    ∧ ((avct_l2c_br_is_passive ccbs = false ∨ bcb.ch_state = AVCT_CH_OPEN) →
      avct_l2c_br_connect_ind_cback (some alloc) bcb ccbs bd_addr lcid =
        { bcb := bcb, actions := [AvctAction.disconnectReq lcid], accepted := false }) := by
  subst haddr
  constructor
  · rintro ⟨hp, ho⟩
    simp [avct_l2c_br_connect_ind_cback, halloc, hp, ho]
  · rintro (hp | ho)
    · simp [avct_l2c_br_connect_ind_cback, halloc, hp]
    · cases bcb
      simp_all [avct_l2c_br_connect_ind_cback]

/-- Witness for C1: concrete accepted-conflict instance. -/
theorem avct_connect_ind_tie_break_witness :
    avct_l2c_br_connect_ind_cback (some 1)
        ⟨1, 9, AVCT_CH_CFG, 64, 0, 0⟩ [⟨true, true, 2⟩] 9 65 =
      { bcb := ⟨1, 9, AVCT_CH_CFG, 65, 64, 0⟩, actions := [], accepted := true } :=
  (avct_connect_ind_tie_break 1 ⟨1, 9, AVCT_CH_CFG, 64, 0, 0⟩ [⟨true, true, 2⟩] 9 65
    (by decide) (by decide)).1 ⟨by decide, by decide⟩

/-- C2: a connect confirm carrying a lcid equal to the session's
recorded conflict handle, while the session is no longer `Connecting`,
requests a transport disconnect for that handle exactly when the result
is OK, clears the conflict record to zero in either case, and leaves
the winning channel's state and handle unchanged with no client-visible
event emitted. -/
theorem avct_connect_cfm_conflict (b : tAVCT_BCB) (lcid : Nat) (result : tL2CAP_CONN)
    (hstate : b.ch_state ≠ AVCT_CH_CONN) (hconf : b.conflict_lcid = lcid) :
    avct_l2c_br_connect_cfm_cback (some b) lcid result =
      (some { b with conflict_lcid := 0 },
        if result = L2CAP_CONN_OK then [AvctAction.disconnectReq lcid] else [])
    ∧ ({ b with conflict_lcid := 0 } : tAVCT_BCB).ch_state = b.ch_state
    ∧ ({ b with conflict_lcid := 0 } : tAVCT_BCB).ch_lcid = b.ch_lcid := by
  refine ⟨?_, rfl, rfl⟩
  cases hr : result <;> simp [avct_l2c_br_connect_cfm_cback, hstate, hconf]

/-- Witness for C2: concrete conflict-winner instance with result OK. -/
theorem avct_connect_cfm_conflict_witness :
    avct_l2c_br_connect_cfm_cback (some ⟨1, 9, AVCT_CH_CFG, 65, 64, 0⟩) 64 L2CAP_CONN_OK =
      (some ⟨1, 9, AVCT_CH_CFG, 65, 0, 0⟩, [AvctAction.disconnectReq 64]) :=
  (avct_connect_cfm_conflict ⟨1, 9, AVCT_CH_CFG, 65, 64, 0⟩ 64 L2CAP_CONN_OK
    (by decide) (by decide)).1

/-- C10: the application-facing disconnect entry point returns `false`
exactly on a null session; it returns `true` for every existing
session, including one already `Closing` (in which case nothing is
changed) and a dynamic-channel session in a state other than `Open` or
`Configuring` (in which case no action at all, in particular no
transport disconnect request, is issued). -/
theorem gatt_disconnect_contract (unified dcr inl bnd : Bool) :
    (gatt_disconnect unified dcr inl bnd none).1 = false
    ∧ (∀ t : tGATT_TCB, (gatt_disconnect unified dcr inl bnd (some t)).1 = true)
    ∧ (∀ t : tGATT_TCB, t.ch_state = GATT_CH_CLOSING →
        gatt_disconnect unified dcr inl bnd (some t) = (true, some t, []))
    ∧ (∀ t : tGATT_TCB, t.att_lcid ≠ L2CAP_ATT_CID →
        t.ch_state ≠ GATT_CH_OPEN → t.ch_state ≠ GATT_CH_CFG →
        gatt_disconnect unified dcr inl bnd (some t) = (true, some t, [])) := by
  refine ⟨rfl, ?_, ?_, ?_⟩
  · intro t
    by_cases h1 : t.ch_state = GATT_CH_CLOSING
    · simp [gatt_disconnect, h1]
    · by_cases h2 : t.att_lcid = L2CAP_ATT_CID
      · by_cases h3 : t.ch_state = GATT_CH_OPEN <;>
          simp [gatt_disconnect, h1, h2, h3]
      · by_cases h3 : t.ch_state = GATT_CH_OPEN ∨ t.ch_state = GATT_CH_CFG <;>
          simp [gatt_disconnect, h1, h2, h3]
  · intro t h1
    simp [gatt_disconnect, h1]
  · intro t h2 h3 h4
    have h1 : t.ch_state ≠ GATT_CH_CLOSING ∨ t.ch_state = GATT_CH_CLOSING := by tauto
    rcases h1 with h1 | h1
    · simp [gatt_disconnect, h1, h2, h3, h4]
    · simp [gatt_disconnect, h1]

/-- Witness for C10: a dynamic-channel session still `Connecting` is
reported disconnected with no transport request issued. -/
theorem gatt_disconnect_contract_witness :
    gatt_disconnect false false false false
        (some ⟨9, BT_TRANSPORT_BR_EDR, 64, GATT_CH_CONN, 23, ∅, 0⟩) =
      (true, some ⟨9, BT_TRANSPORT_BR_EDR, 64, GATT_CH_CONN, 23, ∅, 0⟩, []) :=
  (gatt_disconnect_contract false false false false).2.2.2
    ⟨9, BT_TRANSPORT_BR_EDR, 64, GATT_CH_CONN, 23, ∅, 0⟩
    (by decide) (by decide) (by decide)

/-- C5: adding a client to the holder set returns `true` whether or not
the client was already present and yields the union of the old set with
the singleton client; removing an absent client returns `false` and
leaves the set unchanged, so repeated releases never underflow. -/
theorem hold_release_status_contract :
    (∀ (gatt_if : Nat) (holders : Finset Nat),
      gatt_update_app_hold_link_status gatt_if holders true =
        (holders ∪ {gatt_if}, true))
    ∧ (∀ (gatt_if : Nat) (holders : Finset Nat), gatt_if ∉ holders →
        gatt_update_app_hold_link_status gatt_if holders false = (holders, false)) := by
  constructor
  · intro gatt_if holders
    simp [gatt_update_app_hold_link_status, Finset.insert_eq, Finset.union_comm]
  · intro gatt_if holders h
    simp [gatt_update_app_hold_link_status, h]

/-- Witness for C5: removing client 3 from holder set containing 1 and
2 only reports "not held" and leaves the set unchanged; adding client 1
again keeps the set equal to the union. -/
theorem hold_release_status_contract_witness :
    gatt_update_app_hold_link_status 3 {1, 2} false = ({1, 2}, false)
    ∧ gatt_update_app_hold_link_status 1 {1, 2} true = ({1, 2} ∪ {1}, true) :=
  ⟨hold_release_status_contract.2 3 {1, 2} (by decide),
   hold_release_status_contract.1 1 {1, 2}⟩

/-- C3: on a data indication with no session for the address or channel
(lookup miss), the buffer is released and nothing is processed (the
handlers mutate no session state and raise no error); on a data
indication for a session whose channel state is below `Open`, the
payload is not processed and the buffer is released.  This covers the
LE fixed-channel path, the dynamic-channel path, and the AVCTP
browsing-channel path. -/
theorem data_ind_drop_policy :
    (∀ d : InterceptAction,
      gatt_le_data_ind none d = { processed := false, freed := true })
    ∧ gatt_l2cif_data_ind_cback none = { processed := false, freed := true }
    ∧ avct_l2c_br_data_ind_cback none = { processed := false, freed := true }
    ∧ (∀ (t : tGATT_TCB) (d : InterceptAction), t.ch_state.val < GATT_CH_OPEN.val →
        gatt_le_data_ind (some t) d = { processed := false, freed := true })
    ∧ (∀ t : tGATT_TCB, t.ch_state.val < GATT_CH_OPEN.val →
        gatt_l2cif_data_ind_cback (some t) = { processed := false, freed := true })
    ∧ (∀ b : tAVCT_BCB, b.ch_state ≠ AVCT_CH_OPEN →
        avct_l2c_br_data_ind_cback (some b) = { processed := false, freed := true }) := by
  refine ⟨fun d => rfl, rfl, rfl, ?_, ?_, ?_⟩
  · intro t d h
    cases d <;> simp [gatt_le_data_ind, gatt_get_ch_state, h]
  · intro t h
    have hne : t.ch_state ≠ GATT_CH_OPEN := by
      intro he
      rw [he] at h
      exact absurd h (by decide)
    simp [gatt_l2cif_data_ind_cback, gatt_get_ch_state, hne]
  · intro b h
    simp [avct_l2c_br_data_ind_cback, avct_bcb_event_ll_msg, h]

/-- Witness for C3: a configuring LE session drops and frees an
incoming payload. -/
theorem data_ind_drop_policy_witness :
    gatt_le_data_ind (some ⟨9, BT_TRANSPORT_LE, 4, GATT_CH_CFG, 23, ∅, 0⟩)
        InterceptAction.FORWARD = { processed := false, freed := true } :=
  data_ind_drop_policy.2.2.2.1 ⟨9, BT_TRANSPORT_LE, 4, GATT_CH_CFG, 23, ∅, 0⟩
    InterceptAction.FORWARD (by decide)

/-- C6: on a congestion-changed event that transitions an existing
session to uncongested, the signal that resumes the session's queued
outbound commands is the first emitted action, strictly before every
client congestion callback, and every callback in the trace belongs to
an in-use registrant with a congestion callback and carries the packed
logical connection id together with the new congestion value. -/
theorem congestion_uncongested_order (t : tGATT_TCB) (regs : List tGATT_REG) :
    gatt_le_cong_cback (some t) false regs = gatt_channel_congestion t false regs
    ∧ gatt_l2cif_congest_cback (some t) false regs = gatt_channel_congestion t false regs
    ∧ (gatt_channel_congestion t false regs).head? =
        some (GattAction.resumeSendNextCmd t.tcb_idx)
    ∧ (∀ a ∈ (gatt_channel_congestion t false regs).tail, ∃ r ∈ regs,
        r.in_use = true ∧ r.has_congestion_cb = true ∧
        a = GattAction.congestionCb (GATT_CREATE_CONN_ID t.tcb_idx r.gatt_if) false) := by
  refine ⟨rfl, rfl, ?_, ?_⟩
  · simp [gatt_channel_congestion]
  · intro a ha
    rw [show gatt_channel_congestion t false regs =
        GattAction.resumeSendNextCmd t.tcb_idx :: List.filterMap
          (fun r => if r.in_use && r.has_congestion_cb then
              some (GattAction.congestionCb (GATT_CREATE_CONN_ID t.tcb_idx r.gatt_if) false)
            else none) regs from rfl, List.tail_cons, List.mem_filterMap] at ha
    obtain ⟨r, hr, hfr⟩ := ha
    by_cases hc : r.in_use && r.has_congestion_cb
    · rw [if_pos hc] at hfr
      rcases Bool.and_eq_true_iff.mp hc with ⟨h1, h2⟩
      exact ⟨r, hr, h1, h2, (Option.some_inj.mp hfr).symm⟩
    · rw [if_neg hc] at hfr
      exact absurd hfr (by simp)

/-- Witness for C6: with one eligible registrant, the trace is the
resume signal followed by that registrant's callback. -/
theorem congestion_uncongested_order_witness :
    gatt_le_cong_cback (some ⟨9, BT_TRANSPORT_LE, 4, GATT_CH_OPEN, 23, ∅, 2⟩) false
        [⟨true, 5, true, true, ∅⟩] =
      [GattAction.resumeSendNextCmd 2, GattAction.congestionCb 517 false] := by
  have h := (congestion_uncongested_order ⟨9, BT_TRANSPORT_LE, 4, GATT_CH_OPEN, 23, ∅, 2⟩
    [⟨true, 5, true, true, ∅⟩]).1
  rw [h]
  rfl

/-- C9: on an LE connection-attempt timeout the fixed-channel
disconnect path carries reason `0x08` when the `enumerate_gatt_errors`
flag is enabled and the historical `0xff` when it is disabled; any
reason carried by the resulting teardown is one of exactly these two
values, and the (spec-modelled) cleanup fan-out hands precisely that
reason to every notified client's connection callback. -/
theorem timeout_reason_translation (flag : Bool) (tcb : Option tGATT_TCB)
    (inl bnd : Bool) (addr tcb_idx : Nat) (regs : List tGATT_REG) :
    GattAction.cleanupUponDisc addr (if flag then 0x08 else 0xff) BT_TRANSPORT_LE ∈
        connection_manager_on_connection_timed_out flag tcb inl bnd addr
    ∧ (∀ bda r tr, GattAction.cleanupUponDisc bda r tr ∈
          connection_manager_on_connection_timed_out flag tcb inl bnd addr →
        (r = 0x08 ∨ r = 0xff) ∧ r = (if flag then 0x08 else 0xff))
    ∧ (∀ a ∈ gatt_cleanup_upon_disc_notify regs tcb_idx addr
          (if flag then 0x08 else 0xff) BT_TRANSPORT_LE, ∃ r ∈ regs,
        a = GattAction.connOpenedCback r.gatt_if addr
          (GATT_CREATE_CONN_ID tcb_idx r.gatt_if) false
          (if flag then 0x08 else 0xff) BT_TRANSPORT_LE) := by
  refine ⟨?_, ?_, ?_⟩
  · cases flag <;>
      cases tcb <;>
        simp [connection_manager_on_connection_timed_out, gatt_le_connect_cback_disc] <;>
          by_cases h : ¬inl = true ∧ bnd = true <;> simp [h]
  · intro bda r tr hmem
    cases flag <;> cases tcb <;>
      simp only [connection_manager_on_connection_timed_out,
        gatt_le_connect_cback_disc] at hmem <;>
      by_cases h : ¬inl = true ∧ bnd = true <;>
        simp [h, List.mem_append] at hmem <;>
          simp_all
  · intro a ha
    simp only [gatt_cleanup_upon_disc_notify, List.mem_filterMap] at ha
    obtain ⟨r, hr, hfr⟩ := ha
    by_cases hc : r.in_use && r.has_conn_cb
    · rw [if_pos hc] at hfr
      exact ⟨r, hr, (Option.some_inj.mp hfr).symm⟩
    · rw [if_neg hc] at hfr
      exact absurd hfr (by simp)

/-- Witness for C9: with the flag disabled and no session, the teardown
carries the historical reason `0xff`. -/
theorem timeout_reason_translation_witness :
    GattAction.cleanupUponDisc 9 255 BT_TRANSPORT_LE ∈
      connection_manager_on_connection_timed_out false none false false 9 :=
  (timeout_reason_translation false none false false 9 0 []).1

/-- The embedded `gatt_disconnect` never arms the idle timer. -/
theorem gatt_disconnect_no_idle_arm (u d i b : Bool) (tcb : Option tGATT_TCB)
    (bda v : Nat) (a : Bool) :
    GattAction.setIdleTimeout bda v a ∉ (gatt_disconnect u d i b tcb).2.2 := by
  cases tcb with
  | none => simp [gatt_disconnect]
  | some t =>
      by_cases h1 : t.ch_state = GATT_CH_CLOSING
      · simp [gatt_disconnect, h1]
      · by_cases h2 : t.att_lcid = L2CAP_ATT_CID
        · by_cases h3 : t.ch_state = GATT_CH_OPEN
          · simp [gatt_disconnect, h1, h2, h3]
          · cases u <;> cases d <;> simp [gatt_disconnect, h1, h2, h3]
        · by_cases h3 : t.ch_state = GATT_CH_OPEN ∨ t.ch_state = GATT_CH_CFG
          · cases i <;> cases b <;>
              simp [gatt_disconnect, gatt_l2cif_disconnect, h1, h2, h3]
          · simp [gatt_disconnect, h1, h2, h3]

/-- The embedded `gatt_disconnect` leaves the holder set of the session
it returns unchanged. -/
theorem gatt_disconnect_holders (u d i b : Bool) (t : tGATT_TCB) :
    ∃ t', (gatt_disconnect u d i b (some t)).2.1 = some t'
      ∧ t'.app_hold_link = t.app_hold_link := by
  by_cases h1 : t.ch_state = GATT_CH_CLOSING
  · exact ⟨t, by simp [gatt_disconnect, h1], rfl⟩
  · by_cases h2 : t.att_lcid = L2CAP_ATT_CID
    · by_cases h3 : t.ch_state = GATT_CH_OPEN
      · exact ⟨{ t with ch_state := GATT_CH_CLOSING },
          by simp [gatt_disconnect, h1, h2, h3], rfl⟩
      · exact ⟨t, by simp [gatt_disconnect, h1, h2, h3], rfl⟩
    · by_cases h3 : t.ch_state = GATT_CH_OPEN ∨ t.ch_state = GATT_CH_CFG
      · exact ⟨t, by simp [gatt_disconnect, h1, h2, h3], rfl⟩
      · exact ⟨t, by simp [gatt_disconnect, h1, h2, h3], rfl⟩

/-- C4: when a release empties the holder set of a session while the
OS link-layer connection exists (valid ACL handle) and the ACL check is
requested: a fixed-channel session gets EATT dropped and the idle timer
armed with the no-holders timeout, while a dynamic-channel session is
handed to the disconnect entry point immediately (a transport
disconnect request is issued for an `Open`/`Configuring` channel) with
no idle-timer action at all; moreover, on any invocation whatsoever,
the no-holders timeout is never armed while the resulting holder set is
non-empty. -/
theorem link_hold_release_policy :
    (∀ (gatt_if : Nat) (t : tGATT_TCB) (unified dcr inl bnd : Bool),
      gatt_if ∈ t.app_hold_link →
      t.app_hold_link.erase gatt_if = ∅ →
      (t.att_lcid = L2CAP_ATT_CID →
        gatt_update_app_use_link_flag gatt_if (some t) false true true unified dcr inl bnd =
          (some { t with app_hold_link := t.app_hold_link.erase gatt_if },
            [GattAction.eattDisconnect t.peer_bda,
             GattAction.setIdleTimeout t.peer_bda GATT_LINK_IDLE_TIMEOUT_WHEN_NO_APP false]))
      ∧ (t.att_lcid ≠ L2CAP_ATT_CID →
          (t.ch_state = GATT_CH_OPEN ∨ t.ch_state = GATT_CH_CFG) →
          GattAction.l2caDisconnectReq t.att_lcid ∈
            (gatt_update_app_use_link_flag gatt_if (some t) false true true
              unified dcr inl bnd).2
          ∧ ∀ bda v a, GattAction.setIdleTimeout bda v a ∉
              (gatt_update_app_use_link_flag gatt_if (some t) false true true
                unified dcr inl bnd).2))
    ∧ (∀ (gatt_if : Nat) (t t' : tGATT_TCB) (is_add chk valid unified dcr inl bnd : Bool),
        (gatt_update_app_use_link_flag gatt_if (some t) is_add chk valid
          unified dcr inl bnd).1 = some t' →
        t'.app_hold_link ≠ ∅ →
        ∀ bda a, GattAction.setIdleTimeout bda GATT_LINK_IDLE_TIMEOUT_WHEN_NO_APP a ∉
          (gatt_update_app_use_link_flag gatt_if (some t) is_add chk valid
            unified dcr inl bnd).2) := by
  constructor
  · intro gatt_if t unified dcr inl bnd hmem hempty
    constructor
    · intro hfix
      simp [gatt_update_app_use_link_flag, gatt_update_app_hold_link_status,
        hmem, hempty, hfix]
    · intro hdyn hst
      have hcl : ({ t with app_hold_link := t.app_hold_link.erase gatt_if } :
          tGATT_TCB).ch_state ≠ GATT_CH_CLOSING := by
        rcases hst with h | h <;> simp [h]
      have hred : gatt_update_app_use_link_flag gatt_if (some t) false true true
          unified dcr inl bnd =
          ((gatt_disconnect unified dcr inl bnd
              (some { t with app_hold_link := t.app_hold_link.erase gatt_if })).2.1,
            (gatt_disconnect unified dcr inl bnd
              (some { t with app_hold_link := t.app_hold_link.erase gatt_if })).2.2) := by
        simp [gatt_update_app_use_link_flag, gatt_update_app_hold_link_status,
          hmem, hempty, hdyn]
      rw [hred]
      constructor
      · simp [gatt_disconnect, gatt_l2cif_disconnect, hcl, hdyn, hst]
      · intro bda v a
        exact gatt_disconnect_no_idle_arm unified dcr inl bnd _ bda v a
  · intro gatt_if t t' is_add chk valid unified dcr inl bnd hsome hne bda a
    cases is_add with
    | true =>
        by_cases hchk : chk = true
        · by_cases hfv : t.att_lcid = L2CAP_ATT_CID ∧ valid = true
          · subst hchk
            simp [gatt_update_app_use_link_flag, gatt_update_app_hold_link_status, hfv,
              GATT_LINK_NO_IDLE_TIMEOUT, GATT_LINK_IDLE_TIMEOUT_WHEN_NO_APP]
          · subst hchk
            simp [gatt_update_app_use_link_flag, gatt_update_app_hold_link_status, hfv]
        · have hchk' : chk = false := by
            cases chk
            · rfl
            · exact absurd rfl hchk
          subst hchk'
          simp [gatt_update_app_use_link_flag, gatt_update_app_hold_link_status]
    | false =>
        by_cases hmem : gatt_if ∈ t.app_hold_link
        · by_cases hchk : chk = true
          · subst hchk
            by_cases hempty : t.app_hold_link.erase gatt_if = ∅
            · by_cases hfv : t.att_lcid = L2CAP_ATT_CID ∧ valid = true
              · exfalso
                have : (gatt_update_app_use_link_flag gatt_if (some t) false true valid
                    unified dcr inl bnd).1 =
                    some { t with app_hold_link := t.app_hold_link.erase gatt_if } := by
                  simp [gatt_update_app_use_link_flag, gatt_update_app_hold_link_status,
                    hmem, hempty, hfv]
                rw [this] at hsome
                have ht' := Option.some_inj.mp hsome
                apply hne
                rw [← ht']
                exact hempty
              · exfalso
                have hred : (gatt_update_app_use_link_flag gatt_if (some t) false true valid
                    unified dcr inl bnd).1 =
                    (gatt_disconnect unified dcr inl bnd
                      (some { t with app_hold_link := t.app_hold_link.erase gatt_if })).2.1 := by
                  simp [gatt_update_app_use_link_flag, gatt_update_app_hold_link_status,
                    hmem, hempty, hfv]
                obtain ⟨t'', ht'', hh⟩ := gatt_disconnect_holders unified dcr inl bnd
                  { t with app_hold_link := t.app_hold_link.erase gatt_if }
                rw [hred, ht''] at hsome
                have := Option.some_inj.mp hsome
                apply hne
                rw [← this, hh]
                exact hempty
            · simp [gatt_update_app_use_link_flag, gatt_update_app_hold_link_status,
                hmem, hempty]
          · have hchk' : chk = false := by
              cases chk
              · rfl
              · exact absurd rfl hchk
            subst hchk'
            simp [gatt_update_app_use_link_flag, gatt_update_app_hold_link_status, hmem]
        · simp [gatt_update_app_use_link_flag, gatt_update_app_hold_link_status, hmem]

/-- Witness for C4: client 7 releasing the only hold on a fixed-channel
session with the ACL up arms the no-holders idle timeout after dropping
EATT. -/
theorem link_hold_release_policy_witness :
    gatt_update_app_use_link_flag 7 (some ⟨9, BT_TRANSPORT_LE, 4, GATT_CH_OPEN, 23, {7}, 0⟩)
        false true true false false false false =
      (some ⟨9, BT_TRANSPORT_LE, 4, GATT_CH_OPEN, 23, Finset.erase {7} 7, 0⟩,
        [GattAction.eattDisconnect 9,
         GattAction.setIdleTimeout 9 GATT_LINK_IDLE_TIMEOUT_WHEN_NO_APP false]) :=
  ((link_hold_release_policy.1 7 ⟨9, BT_TRANSPORT_LE, 4, GATT_CH_OPEN, 23, {7}, 0⟩
    false false false false (by decide) (by decide)).1 rfl)

/-- C7 counterexample: the session-open service-changed check sends the
indication for a peer with the pending flag set even when the peer's
stored name is on the interoperability suppression list (here the list
that matches the stored name "BAD"): the at-open path
(`gatt_chk_srv_chg`) takes no name or interop input at all and attempts
the indication, while only the local-database-change path
(`gatt_proc_srv_chg`) consults the list and skips the peer. -/
theorem srv_chg_suppression_cex :
    gatt_chk_srv_chg 20 (some 3) 1 65535 { bda := 9, srv_changed := true } =
      [GattAction.handleValueInd 3 20 [1, 0, 255, 255]]
    ∧ (fun n : String => n == "BAD") "BAD" = true
    ∧ gatt_proc_srv_chg_device false (some "BAD") (fun n : String => n == "BAD")
        20 (some 3) 1 65535 9 = [] := by
  refine ⟨?_, rfl, ?_⟩ <;> decide

/-- C7 (amended): when a session reaches `Open` with the pending flag
set, a service-changed indication is attempted regardless of the
suppression list (the at-open path consults no name data), and not
attempted when the flag is clear; a successful attempt on a resolvable
connection is a single indication with a 4-byte handle-range payload;
the suppression list takes effect only in the database-change path,
where a peer whose stored name matches it is skipped entirely. -/
theorem srv_chg_policy_amended :
    (∀ (h : Nat) (cid : Option Nat) (s l : Nat) (clt : tGATTS_SRV_CHG),
      (clt.srv_changed = true →
        gatt_chk_srv_chg h cid s l clt = gatt_send_srv_chg_ind h cid s l clt.bda)
      ∧ (clt.srv_changed = false → gatt_chk_srv_chg h cid s l clt = []))
    ∧ (∀ (h c s l bda : Nat), h ≠ 0 →
        gatt_send_srv_chg_ind h (some c) s l bda =
          [GattAction.handleValueInd c h
            [s % 256, s / 256 % 256, l % 256, l / 256 % 256]]
        ∧ ([s % 256, s / 256 % 256, l % 256, l / 256 % 256] : List Nat).length = 4)
    ∧ (∀ (name : String) (im : String → Bool) (h : Nat) (cid : Option Nat) (s l bda : Nat),
        im name = true →
        gatt_proc_srv_chg_device false (some name) im h cid s l bda = []) := by
  refine ⟨?_, ?_, ?_⟩
  · intro h cid s l clt
    constructor
    · intro hp
      simp [gatt_chk_srv_chg, hp]
    · intro hp
      simp [gatt_chk_srv_chg, hp]
  · intro h c s l bda hh
    exact ⟨by simp [gatt_send_srv_chg_ind, hh, UINT16_TO_STREAM], rfl⟩
  · intro name im h cid s l bda him
    simp [gatt_proc_srv_chg_device, him]

/-- Witness for the amended C7: a pending, suppressed peer still gets
the 4-byte indication at session open, and is skipped by the
database-change path. -/
theorem srv_chg_policy_amended_witness :
    gatt_chk_srv_chg 20 (some 3) 1 65535 { bda := 9, srv_changed := true } =
      gatt_send_srv_chg_ind 20 (some 3) 1 65535 9
    ∧ gatt_proc_srv_chg_device false (some "BAD") (fun n : String => n == "BAD")
        20 (some 3) 1 65535 9 = [] :=
  ⟨(srv_chg_policy_amended.1 20 (some 3) 1 65535 { bda := 9, srv_changed := true }).1 rfl,
   srv_chg_policy_amended.2.2 "BAD" (fun n : String => n == "BAD") 20 (some 3) 1 65535 9
     (by decide)⟩

/-- The holder-add path of `gatt_update_app_use_link_flag` always
returns the session with the client inserted into the holder set. -/
theorem update_use_link_add_fst (gi : Nat) (t : tGATT_TCB) (chk v u d i b : Bool) :
    (gatt_update_app_use_link_flag gi (some t) true chk v u d i b).1 =
      some { t with app_hold_link := insert gi t.app_hold_link } := by
  by_cases hchk : chk = true
  · subst hchk
    by_cases hfv : t.att_lcid = L2CAP_ATT_CID ∧ v = true <;>
      simp [gatt_update_app_use_link_flag, gatt_update_app_hold_link_status, hfv]
  · have hchk' : chk = false := by
      cases chk
      · rfl
      · exact absurd rfl hchk
    subst hchk'
    simp [gatt_update_app_use_link_flag, gatt_update_app_hold_link_status]

/-- Per-registrant properties of one fan-out step: the session's
identity fields are untouched, the holder set only grows, a matching
in-use registrant becomes a holder, and an in-use registrant with a
connection callback is notified with the packed id, `OK` and the
session's transport. -/
theorem conn_cback_step_props (apps : Finset Nat) (rf v u d i b : Bool)
    (t : tGATT_TCB) (r : tGATT_REG) :
    ((gatt_send_conn_cback_step apps rf v u d i b t r).1.peer_bda = t.peer_bda
      ∧ (gatt_send_conn_cback_step apps rf v u d i b t r).1.tcb_idx = t.tcb_idx
      ∧ (gatt_send_conn_cback_step apps rf v u d i b t r).1.transport = t.transport)
    ∧ t.app_hold_link ⊆ (gatt_send_conn_cback_step apps rf v u d i b t r).1.app_hold_link
    ∧ (r.in_use = true → r.gatt_if ∈ apps →
        r.gatt_if ∈ (gatt_send_conn_cback_step apps rf v u d i b t r).1.app_hold_link)
    ∧ (r.in_use = true → r.has_conn_cb = true →
        GattAction.connOpenedCback r.gatt_if t.peer_bda
          (GATT_CREATE_CONN_ID t.tcb_idx r.gatt_if) true GATT_CONN_OK t.transport ∈
          (gatt_send_conn_cback_step apps rf v u d i b t r).2.2) := by
  by_cases hu : r.in_use = true
  · by_cases ha : r.gatt_if ∈ apps
    · by_cases hd : rf = true ∧ t.peer_bda ∈ r.direct_connect_request
      · have hsub : t.app_hold_link ⊆ insert r.gatt_if (insert r.gatt_if t.app_hold_link) :=
          fun x hx => Finset.mem_insert_of_mem (Finset.mem_insert_of_mem hx)
        by_cases hc : r.has_conn_cb = true <;>
          simp [gatt_send_conn_cback_step, hu, ha, hd, hc, update_use_link_add_fst, hsub]
      · by_cases hc : r.has_conn_cb = true <;>
          simp [gatt_send_conn_cback_step, hu, ha, hd, hc, update_use_link_add_fst,
            Finset.subset_insert]
    · by_cases hd : rf = true ∧ t.peer_bda ∈ r.direct_connect_request
      · by_cases hc : r.has_conn_cb = true <;>
          simp [gatt_send_conn_cback_step, hu, ha, hd, hc, update_use_link_add_fst,
            Finset.subset_insert]
      · by_cases hc : r.has_conn_cb = true <;>
          simp [gatt_send_conn_cback_step, hu, ha, hd, hc]
  · simp [gatt_send_conn_cback_step, hu]

/-- Properties of the whole registrant loop, by induction over the
registry: session identity fields are invariant, the holder set only
grows, and every in-use registrant in the list that matches the
connecting set becomes a holder and (when it registered one) receives
its connection-opened callback with the packed id. -/
theorem conn_cback_loop_props (apps : Finset Nat) (rf v u d i b : Bool)
    (regs : List tGATT_REG) (t : tGATT_TCB) :
    ((gatt_send_conn_cback_loop apps rf v u d i b t regs).1.peer_bda = t.peer_bda
      ∧ (gatt_send_conn_cback_loop apps rf v u d i b t regs).1.tcb_idx = t.tcb_idx
      ∧ (gatt_send_conn_cback_loop apps rf v u d i b t regs).1.transport = t.transport)
    ∧ t.app_hold_link ⊆ (gatt_send_conn_cback_loop apps rf v u d i b t regs).1.app_hold_link
    ∧ ∀ r ∈ regs, r.in_use = true →
        (r.gatt_if ∈ apps →
          r.gatt_if ∈ (gatt_send_conn_cback_loop apps rf v u d i b t regs).1.app_hold_link)
        ∧ (r.has_conn_cb = true →
            GattAction.connOpenedCback r.gatt_if t.peer_bda
              (GATT_CREATE_CONN_ID t.tcb_idx r.gatt_if) true GATT_CONN_OK t.transport ∈
              (gatt_send_conn_cback_loop apps rf v u d i b t regs).2.2) := by
  induction regs generalizing t with
  | nil =>
      exact ⟨⟨rfl, rfl, rfl⟩, Finset.Subset.refl _, fun r hr => absurd hr (List.not_mem_nil r)⟩
  | cons r0 rs ih =>
      obtain ⟨⟨sp, si, st⟩, ssub, smem, scb⟩ := conn_cback_step_props apps rf v u d i b t r0
      obtain ⟨⟨lp, li, lt⟩, lsub, lrest⟩ :=
        ih (gatt_send_conn_cback_step apps rf v u d i b t r0).1
      refine ⟨⟨?_, ?_, ?_⟩, ?_, ?_⟩
      · simp only [gatt_send_conn_cback_loop]
        rw [lp, sp]
      · simp only [gatt_send_conn_cback_loop]
        rw [li, si]
      · simp only [gatt_send_conn_cback_loop]
        rw [lt, st]
      · simp only [gatt_send_conn_cback_loop]
        exact Finset.Subset.trans ssub lsub
      · intro r hr hu
        rcases List.mem_cons.mp hr with hr0 | hrs
        · subst hr0
          constructor
          · intro ha
            simp only [gatt_send_conn_cback_loop]
            exact lsub (smem hu ha)
          · intro hc
            simp only [gatt_send_conn_cback_loop, List.mem_append]
            exact Or.inl (scb hu hc)
        · constructor
          · intro ha
            simp only [gatt_send_conn_cback_loop]
            exact ((lrest r hrs hu).1 ha)
          · intro hc
            have hmem := (lrest r hrs hu).2 hc
            rw [sp, si, st] at hmem
            simp only [gatt_send_conn_cback_loop, List.mem_append]
            exact Or.inr hmem

/-- C8: on session open (legacy connection manager path), every in-use
registrant that the connection manager reports as connecting to the
peer — per the spec, every client whose direct-connect request set or
background-connect filter includes the peer — is added to the session's
holder set, and, when it registered a connection callback, receives the
connection-opened callback with the logical id packed from the session
slot index and its client id, reason `GATT_CONN_OK`, and the session's
transport; this holds for every matching registrant in the registry,
not only the session owner. -/
theorem conn_cback_fanout (apps : Finset Nat) (rf v d i b : Bool)
    (t : tGATT_TCB) (regs : List tGATT_REG) (r : tGATT_REG)
    (hr : r ∈ regs) (hu : r.in_use = true) (ha : r.gatt_if ∈ apps) :
    r.gatt_if ∈ (gatt_send_conn_cback apps rf v false d i b t regs).1.app_hold_link
    ∧ (r.has_conn_cb = true →
        GattAction.connOpenedCback r.gatt_if t.peer_bda
          (GATT_CREATE_CONN_ID t.tcb_idx r.gatt_if) true GATT_CONN_OK t.transport ∈
          (gatt_send_conn_cback apps rf v false d i b t regs).2.2) := by
  obtain ⟨_, _, lrest⟩ := conn_cback_loop_props apps rf v false d i b regs t
  obtain ⟨h1, h2⟩ := lrest r hr hu
  constructor
  · simpa [gatt_send_conn_cback] using h1 ha
  · intro hc
    have := h2 hc
    simp only [gatt_send_conn_cback, List.mem_append]
    exact Or.inl (Or.inl this)

/-- Witness for C8: with one matching registrant (client 5) connecting
to peer 9, the open fan-out makes it a holder and delivers its
connection-opened callback. -/
theorem conn_cback_fanout_witness :
    5 ∈ (gatt_send_conn_cback {5} false true false false false false
          ⟨9, BT_TRANSPORT_LE, 4, GATT_CH_OPEN, 23, ∅, 2⟩
          [⟨true, 5, false, true, ∅⟩]).1.app_hold_link
    ∧ GattAction.connOpenedCback 5 9 (GATT_CREATE_CONN_ID 2 5) true GATT_CONN_OK
        BT_TRANSPORT_LE ∈
        (gatt_send_conn_cback {5} false true false false false false
          ⟨9, BT_TRANSPORT_LE, 4, GATT_CH_OPEN, 23, ∅, 2⟩
          [⟨true, 5, false, true, ∅⟩]).2.2 :=
  ⟨(conn_cback_fanout {5} false true false false false
      ⟨9, BT_TRANSPORT_LE, 4, GATT_CH_OPEN, 23, ∅, 2⟩
      [⟨true, 5, false, true, ∅⟩] ⟨true, 5, false, true, ∅⟩
      (by simp) rfl (by decide)).1,
   (conn_cback_fanout {5} false true false false false
      ⟨9, BT_TRANSPORT_LE, 4, GATT_CH_OPEN, 23, ∅, 2⟩
      [⟨true, 5, false, true, ∅⟩] ⟨true, 5, false, true, ∅⟩
      (by simp) rfl (by decide)).2 rfl⟩

end BtStack
